import Mathlib

/-!
Verification of the todo-list Store Service (`main.py`) and its Tool Bridge
Adapter (`mcp_server.py` and the `TodoMCPServer` class embedded in `main.py`).

The Store Service keeps an in-memory list `todos_db` of todo items and a
process-wide counter `next_id`.  Endpoints: list-all, get-by-id, create,
update (partial merge via `dict(exclude_unset=True)` + `setattr`), delete,
and aggregate statistics.  The adapter forwards tool calls over HTTP and
formats JSON responses as text.

Modelling conventions:
* timestamps (`datetime.now()`) are abstract clock readings, modelled as `Nat`
  values supplied as explicit `now` arguments;
* Python `None` is `Option.none`; a request field that may be *absent or null*
  is `Option (Option _)` (outer layer: present in the request; inner layer:
  the JSON value, which may itself be null);
* the stored `title` and `completed` fields are declared `str` / `bool` in the
  pydantic model, but the update endpoint writes request values with `setattr`
  without re-validation, so an explicitly-null request field can store `None`
  in them; they are therefore modelled as `Option`;
* Python float arithmetic in the stats percentage is modelled exactly over `ℚ`,
  with `round(x, 2)` modelled as round-half-to-even at two decimal places
  (Python's `round` semantics, read over exact rationals).
-/

namespace TodoApp

/-- A stored todo item (pydantic model `Todo` in `main.py`). -/
structure Todo where
  id : Nat
  title : Option String
  description : Option String
  completed : Option Bool
  created_at : Nat
  updated_at : Nat
deriving DecidableEq, Repr

/-- Request body of the create endpoint (pydantic model `TodoCreate`):
`title` is required and non-null, `description` defaults to `None`,
`completed` defaults to `False`. -/
structure TodoCreate where
  title : String
  description : Option String
  completed : Bool
deriving DecidableEq, Repr

/-- Request body of the update endpoint (pydantic model `TodoUpdate`).
Each field records whether it was set in the request (outer `Option`,
mirroring `dict(exclude_unset=True)`) and, when set, its value, which may be
an explicit JSON null (inner `Option`). -/
structure TodoUpdate where
  title : Option (Option String)
  description : Option (Option String)
  completed : Option (Option Bool)
deriving DecidableEq, Repr

/-- The Store Service's module-level mutable state: the list `todos_db` and
the id counter `next_id`. -/
structure AppState where
  todos_db : List Todo
  next_id : Nat
deriving DecidableEq, Repr

/-- Python truthiness of a stored `completed` value (`if todo.completed`):
only the boolean `True` is truthy; `False` and `None` are falsy. -/
def py_truthy : Option Bool → Bool
  | some true => true
  | _ => false

/-- How a Python f-string renders an optional string: `None` prints as the
four letters `None`; a string prints as itself. -/
def pyStr : Option String → String
  | none => "None"
  | some s => s

/-- The single-quote character, as a string. -/
def sq : String := String.singleton (Char.ofNat 39)

/-- `GET /todos`: returns the whole collection in order. -/
def get_todos (s : AppState) : List Todo :=
  s.todos_db

/-- `GET /todos/{todo_id}` body: linear scan returning the first item whose
id matches, or 404 (`none`). -/
def get_todo (todo_id : Nat) (db : List Todo) : Option Todo :=
  db.find? (fun t => t.id == todo_id)

/-- Response shape of `GET /todos/stats`. -/
structure TodoStats where
  total_todos : Nat
  completed_todos : Nat
  pending_todos : Nat
  completion_percentage : ℚ
deriving DecidableEq, Repr

/-- Round-half-to-even to an integer (Python `round` on exact values). -/
def round_half_even (q : ℚ) : ℤ :=
  let f := Int.floor q
  let r := q - (f : ℚ)
  if r < 1/2 then f
  else if 1/2 < r then f + 1
  else if f % 2 = 0 then f else f + 1

/-- Python `round(q, 2)` read over exact rationals. -/
def round2 (q : ℚ) : ℚ :=
  (round_half_even (q * 100) : ℚ) / 100

/-- `GET /todos/stats` body (`get_todo_stats` in `main.py`): counts the
collection, counts the truthy `completed` flags, and computes
`round(completed / total * 100, 2)` when the collection is non-empty,
`0` otherwise. -/
def get_todo_stats (db : List Todo) : TodoStats :=
  let total_todos := db.length
  let completed_todos := db.countP (fun t => py_truthy t.completed)
  let pending_todos := total_todos - completed_todos
  { total_todos := total_todos
    completed_todos := completed_todos
    pending_todos := pending_todos
    completion_percentage :=
      if 0 < total_todos then
        round2 ((completed_todos : ℚ) / (total_todos : ℚ) * 100)
      else 0 }

/-- `POST /todos` body (`create_todo` in `main.py`): builds a new `Todo` with
id `next_id`, the request's fields, `created_at = updated_at = now`, appends
it to `todos_db` and increments `next_id`.  Returns the new item and the new
state. -/
def create_todo (todo : TodoCreate) (now : Nat) (s : AppState) : Todo × AppState :=
  let new_todo : Todo :=
    { id := s.next_id
      title := some todo.title
      description := todo.description
      completed := some todo.completed
      created_at := now
      updated_at := now }
  (new_todo, { todos_db := s.todos_db ++ [new_todo], next_id := s.next_id + 1 })

/-- The merge the update endpoint applies to the matched item: for each field
that was set in the request (`dict(exclude_unset=True)`), `setattr` stores the
request's value (even an explicit null); unset fields keep their prior value;
then `updated_at` is set to now. -/
def apply_update_data (u : TodoUpdate) (now : Nat) (t : Todo) : Todo :=
  { t with
    title := u.title.getD t.title
    description := u.description.getD t.description
    completed := u.completed.getD t.completed
    updated_at := now }

/-- The scan-and-replace loop of `update_todo`: finds the first item with the
given id, applies the merge, and writes the result back in place (`todos_db[i]
= todo`).  `none` when no item matches. -/
def update_in_db (todo_id : Nat) (u : TodoUpdate) (now : Nat) : List Todo → Option (Todo × List Todo)
  | [] => none
  | t :: ts =>
    if t.id == todo_id then
      let t2 := apply_update_data u now t
      some (t2, t2 :: ts)
    else
      (update_in_db todo_id u now ts).map (fun p => (p.1, t :: p.2))

/-- `PUT /todos/{todo_id}`: on a match, returns the merged item and the state
with it replaced; otherwise raises 404 (`none`) leaving the state untouched. -/
def update_todo (todo_id : Nat) (u : TodoUpdate) (now : Nat) (s : AppState) :
    Option Todo × AppState :=
  match update_in_db todo_id u now s.todos_db with
  | some (t2, db2) => (some t2, { s with todos_db := db2 })
  | none => (none, s)

/-- The scan-and-pop loop of `delete_todo`: removes the first item with the
given id (`todos_db.pop(i)`), returning it and the remaining list. -/
def delete_in_db (todo_id : Nat) : List Todo → Option (Todo × List Todo)
  | [] => none
  | t :: ts =>
    if t.id == todo_id then some (t, ts)
    else (delete_in_db todo_id ts).map (fun p => (p.1, t :: p.2))

/-- The confirmation body of a successful delete:
`f"Todo '{deleted_todo.title}' deleted successfully"`. -/
def delete_message (t : Todo) : String :=
  "Todo " ++ sq ++ pyStr t.title ++ sq ++ " deleted successfully"

/-- `DELETE /todos/{todo_id}`: on a match, pops the item and returns the
confirmation message; otherwise raises 404 (`none`) leaving the state
untouched. -/
def delete_todo (todo_id : Nat) (s : AppState) : Option String × AppState :=
  match delete_in_db todo_id s.todos_db with
  | some (t, db2) => (some (delete_message t), { s with todos_db := db2 })
  | none => (none, s)

/-- The five seed items (`dummy_todos` in `main.py`); the fourth is the only
completed one. -/
def dummy_todos : List TodoCreate :=
  [ { title := "Learn FastAPI", description := some ("Complete FastAPI tutorial"), completed := false }
  , { title := "Build MCP Server", description := some ("Create MCP server for Gemini CLI"), completed := false }
  , { title := "Test Integration", description := some ("Test FastAPI with MCP server"), completed := false }
  , { title := "Deploy Application", description := some ("Deploy to production"), completed := true }
  , { title := "Write Documentation", description := some ("Create API documentation"), completed := false } ]

/-- The state before seeding: empty collection, counter at 1. -/
def initState : AppState :=
  { todos_db := [], next_id := 1 }

/-- The startup seeding loop of `main.py`: for each dummy item it builds a
`Todo` with id `next_id` and `created_at = updated_at = now`, appends it and
increments the counter — exactly the body of `create_todo`, so it is modelled
as a fold of `create_todo`. -/
def seed_state (now : Nat) : AppState :=
  dummy_todos.foldl (fun s t => (create_todo t now s).2) initState

/-! ### The Store Service as a state machine

One `Op` per endpoint; `step` applies its state effect; reads leave the state
untouched. -/

/-- One request to the Store Service. -/
inductive Op where
  | createOp (todo : TodoCreate) (now : Nat)
  | updateOp (todo_id : Nat) (u : TodoUpdate) (now : Nat)
  | deleteOp (todo_id : Nat)
  | getOp (todo_id : Nat)
  | listOp
  | statsOp
deriving DecidableEq, Repr

/-- State effect of one request. -/
def step (s : AppState) : Op → AppState
  | Op.createOp todo now => (create_todo todo now s).2
  | Op.updateOp todo_id u now => (update_todo todo_id u now s).2
  | Op.deleteOp todo_id => (delete_todo todo_id s).2
  | Op.getOp _ => s
  | Op.listOp => s
  | Op.statsOp => s

/-- Running a sequence of requests. -/
def run (s : AppState) : List Op → AppState
  | [] => s
  | op :: ops => run (step s op) ops

/-- The ids returned by the create operations of a request sequence, in
order. -/
def created_ids (s : AppState) : List Op → List Nat
  | [] => []
  | op :: ops =>
    match op with
    | Op.createOp todo now =>
        (create_todo todo now s).1.id :: created_ids (step s (Op.createOp todo now)) ops
    | _ => created_ids (step s op) ops

/-- The ids of the live collection, in order. -/
def db_ids (db : List Todo) : List Nat :=
  db.map Todo.id

/-- The id-allocation invariant: every live id is below the counter, and live
ids are pairwise distinct. -/
def Inv (s : AppState) : Prop :=
  (∀ t ∈ s.todos_db, t.id < s.next_id) ∧ (db_ids s.todos_db).Nodup

end TodoApp

namespace TodoAdapter

open TodoApp

/-! ### The Tool Bridge Adapter

`mcp_server.py` and the `TodoMCPServer` class in `main.py` are the two copies
of the adapter; the spec treats them as one interface.  The adapter's HTTP
layer and its tool dispatch are modelled over explicit outcome values: the
adapter is a pure translation layer, so each tool's behaviour is a function of
what the wire returned. -/

/-- Outcome of one underlying `httpx` call: a success body, a non-success
HTTP status (which `raise_for_status` turns into `HTTPStatusError`), or a
connection failure (`ConnectError`). -/
inductive HttpOutcome where
  | success (body : String)
  | httpError (status : Nat) (body : String)
  | connectError
deriving DecidableEq, Repr

/-- The error text `make_request` in `mcp_server.py` raises on
`httpx.ConnectError`. -/
def connect_error_msg : String :=
  "Cannot connect to FastAPI server. Make sure it" ++ sq ++
    "s running on http://localhost:8001"

/-- The error text `make_request` in `mcp_server.py` raises on
`httpx.HTTPStatusError`: status code and response body. -/
def http_error_msg (status : Nat) (body : String) : String :=
  "HTTP error: " ++ toString status ++ " - " ++ body

/-- `make_request` in `mcp_server.py`: returns the JSON body on success; on a
connection failure raises a descriptive error naming the expected address; on
a non-success status raises an error carrying the status code and response
body. -/
def make_request (o : HttpOutcome) : Except String String :=
  match o with
  | HttpOutcome.success b => Except.ok b
  | HttpOutcome.httpError status body => Except.error (http_error_msg status body)
  | HttpOutcome.connectError => Except.error connect_error_msg

/-- One `TextContent(type="text", text=...)` block. -/
structure TextContent where
  type : String
  text : String
deriving DecidableEq, Repr

/-- A `CallToolResult`: a list of content blocks. -/
structure CallToolResult where
  content : List TextContent
deriving DecidableEq, Repr

/-- Every result the adapter builds: a single text content block. -/
def mk_text_result (msg : String) : CallToolResult :=
  { content := [{ type := "text", text := msg }] }

/-- Behaviour of the six registered tool bodies for one invocation: each
either returns the text it rendered or raises an exception carrying a
message (every success branch in the source builds a single text block). -/
structure ToolEnv where
  get_todos_tool : Except String String
  get_todo_stats_tool : Except String String
  create_todo_tool : Except String String
  update_todo_tool : Except String String
  delete_todo_tool : Except String String
  get_todo_by_id_tool : Except String String

/-- The `if name == ... / elif ... / else` chain of `handle_call_tool` in
`main.py`: selects the registered tool body for a name, `none` for an unknown
name. -/
def dispatch_tool (env : ToolEnv) (name : String) : Option (Except String String) :=
  if name = "get_todos" then some env.get_todos_tool
  else if name = "get_todo_stats" then some env.get_todo_stats_tool
  else if name = "create_todo" then some env.create_todo_tool
  else if name = "update_todo" then some env.update_todo_tool
  else if name = "delete_todo" then some env.delete_todo_tool
  else if name = "get_todo_by_id" then some env.get_todo_by_id_tool
  else none

/-- The six registered tool names. -/
def tool_names : List String :=
  ["get_todos", "get_todo_stats", "create_todo", "update_todo",
   "delete_todo", "get_todo_by_id"]

/-- `handle_call_tool` in `main.py`: dispatches on the tool name inside a
`try` block; an unknown name yields the text `Unknown tool: {name}`; any
exception raised by a tool body is caught and converted to the text
`Error: {message}`. -/
def handle_call_tool (env : ToolEnv) (name : String) : CallToolResult :=
  match dispatch_tool env name with
  | some (Except.ok text) => mk_text_result text
  | some (Except.error e) => mk_text_result ("Error: " ++ e)
  | none => mk_text_result ("Unknown tool: " ++ name)

/-! ### Rendering of list-all results -/

/-- A todo item as the adapter sees it after `response.json()`: a JSON object.
FastAPI's `response_model` serialization emits every model field, so a `None`
description arrives as an explicit null under a present `description` key;
the outer `Option` on `description` records key presence so that the
`todo.get('description', 'No description')` access is modelled exactly. -/
structure TodoJson where
  id : Nat
  title : Option String
  description : Option (Option String)
  completed : Option Bool
  created_at : Nat
  updated_at : Nat
deriving DecidableEq, Repr

/-- How the Store Service serializes a stored item to JSON: all six fields
are emitted, so the `description` key is always present (with null for
`None`). -/
def serialize_todo (t : Todo) : TodoJson :=
  { id := t.id
    title := t.title
    description := some t.description
    completed := t.completed
    created_at := t.created_at
    updated_at := t.updated_at }

/-- `todo.get('description', 'No description')` followed by f-string
rendering: the placeholder appears only when the key is absent; a present
null renders as `None`. -/
def render_description (d : Option (Option String)) : String :=
  match d with
  | none => "No description"
  | some v => pyStr v

/-- One line of `_get_todos` output:
`f"ID: {id} | {title} | {'✅' if completed else '⏳'} | {get('description', 'No description')}"`. -/
def render_todo_line (j : TodoJson) : String :=
  "ID: " ++ toString j.id ++ " | " ++ pyStr j.title ++ " | " ++
    (if py_truthy j.completed then "✅" else "⏳") ++ " | " ++
    render_description j.description

/-- The full text of the adapter's `get_todos` tool over a list-all response:
header plus one line per item, joined with newlines. -/
def get_todos_text (db : List Todo) : String :=
  "All Todos:\n" ++
    String.intercalate ("\n") ((db.map serialize_todo).map render_todo_line)

/-! ### The update tool's argument filtering -/

/-- Arguments of the adapter's `update_todo` tool (`mcp_server.py`): `id` is
required; the other three default to `None`, and an explicit null argument is
indistinguishable from an absent one. -/
structure UpdateToolArgs where
  todo_id : Nat
  title : Option String
  description : Option String
  completed : Option Bool
deriving DecidableEq, Repr

/-- The payload the adapter's `update_todo` tool forwards to
`PUT /todos/{id}`: each key is included only when the argument is non-null
(the `if ... is not None` chain in `mcp_server.py`, equally the
`v is not None` filter in `main.py`), so a forwarded field is always set to a
non-null value. -/
def build_update_data (a : UpdateToolArgs) : TodoUpdate :=
  { title := a.title.map some
    description := a.description.map some
    completed := a.completed.map some }

end TodoAdapter

namespace TodoApp

/-! ### Fixtures and helper lemmas used by the claim theorems -/

/-- A one-item collection used to instantiate witnesses. -/
def wTodo : Todo :=
  { id := 1, title := some ("A"), description := some ("B"),
    completed := some false, created_at := 3, updated_at := 3 }

/-- A state holding `wTodo`, counter at 2. -/
def wState : AppState :=
  { todos_db := [wTodo], next_id := 2 }

/-- The update body `{completed: true}` (only `completed` set). -/
def wUpd : TodoUpdate :=
  { title := none, description := none, completed := some (some true) }

end TodoApp

namespace TodoAdapter

open TodoApp

/-- A tool environment in which every tool body raises `boom`. -/
def wEnv : ToolEnv :=
  { get_todos_tool := Except.error ("boom")
    get_todo_stats_tool := Except.error ("boom")
    create_todo_tool := Except.error ("boom")
    update_todo_tool := Except.error ("boom")
    delete_todo_tool := Except.error ("boom")
    get_todo_by_id_tool := Except.error ("boom") }

/-- A stored item with a null description (as produced by creating a todo
with only a title), used to exhibit the rendering divergence. -/
def cexTodo : Todo :=
  { id := 6, title := some ("X"), description := none,
    completed := some false, created_at := 0, updated_at := 0 }

end TodoAdapter

namespace TodoApp

/-! ### Helper lemmas: the update scan -/

theorem apply_update_data_id (u : TodoUpdate) (now : Nat) (t : Todo) :
    (apply_update_data u now t).id = t.id := rfl

theorem apply_update_data_created_at (u : TodoUpdate) (now : Nat) (t : Todo) :
    (apply_update_data u now t).created_at = t.created_at := rfl

theorem get_todo_cons_pos {t : Todo} {todo_id : Nat} (ts : List Todo)
    (h : (t.id == todo_id) = true) : get_todo todo_id (t :: ts) = some t := by
  simp [get_todo, List.find?_cons, h]

theorem get_todo_cons_neg {t : Todo} {todo_id : Nat} (ts : List Todo)
    (h : (t.id == todo_id) = false) :
    get_todo todo_id (t :: ts) = get_todo todo_id ts := by
  simp [get_todo, List.find?_cons, h]

theorem update_in_db_of_find_none (todo_id : Nat) (u : TodoUpdate) (now : Nat) :
    ∀ db : List Todo, get_todo todo_id db = none →
      update_in_db todo_id u now db = none := by
  intro db
  induction db with
  | nil => intro _; rfl
  | cons t ts ih =>
    intro h
    cases hid : (t.id == todo_id) with
    | true => rw [get_todo_cons_pos ts hid] at h; exact absurd h (by simp)
    | false =>
      rw [get_todo_cons_neg ts hid] at h
      simp [update_in_db, hid, ih h]

theorem update_in_db_of_find_some (todo_id : Nat) (u : TodoUpdate) (now : Nat) :
    ∀ db : List Todo, ∀ t : Todo, get_todo todo_id db = some t →
      ∃ db2, update_in_db todo_id u now db = some (apply_update_data u now t, db2) ∧
        apply_update_data u now t ∈ db2 ∧ db_ids db2 = db_ids db := by
  intro db
  induction db with
  | nil => intro t h; simp [get_todo] at h
  | cons t0 ts ih =>
    intro t h
    cases hid : (t0.id == todo_id) with
    | true =>
      rw [get_todo_cons_pos ts hid] at h
      have ht : t0 = t := by exact Option.some.inj h
      subst ht
      refine ⟨apply_update_data u now t0 :: ts, ?_, List.mem_cons_self _ _, ?_⟩
      · simp [update_in_db, hid]
      · simp [db_ids, apply_update_data_id]
    | false =>
      rw [get_todo_cons_neg ts hid] at h
      obtain ⟨db2, h1, h2, h3⟩ := ih t h
      refine ⟨t0 :: db2, ?_, List.mem_cons_of_mem _ h2, ?_⟩
      · simp [update_in_db, hid, h1]
      · simp only [db_ids, List.map_cons]
        simp only [db_ids] at h3
        rw [h3]

theorem update_todo_next_id (todo_id : Nat) (u : TodoUpdate) (now : Nat) (s : AppState) :
    (update_todo todo_id u now s).2.next_id = s.next_id := by
  unfold update_todo
  cases h : update_in_db todo_id u now s.todos_db with
  | none => rfl
  | some p => rfl

/-! ### Helper lemmas: the delete scan -/

theorem delete_in_db_isSome (todo_id : Nat) :
    ∀ db : List Todo, (delete_in_db todo_id db).isSome ↔ ∃ t ∈ db, t.id = todo_id := by
  intro db
  induction db with
  | nil => simp [delete_in_db]
  | cons t0 ts ih =>
    cases hid : (t0.id == todo_id) with
    | true =>
      have hid' : t0.id = todo_id := by simpa using hid
      simp [delete_in_db, hid, hid']
    | false =>
      have hid' : ¬ t0.id = todo_id := by simpa using hid
      simp only [delete_in_db, hid, Bool.false_eq_true, if_false, Option.isSome_map']
      rw [ih]
      constructor
      · intro hx
        obtain ⟨t, ht, hteq⟩ := hx
        exact ⟨t, List.mem_cons_of_mem _ ht, hteq⟩
      · intro hx
        obtain ⟨t, ht, hteq⟩ := hx
        rcases List.mem_cons.1 ht with h1 | h1
        · exact absurd (h1 ▸ hteq) hid'
        · exact ⟨t, h1, hteq⟩

theorem delete_in_db_eq_some (todo_id : Nat) :
    ∀ db : List Todo, ∀ t : Todo, ∀ db2 : List Todo,
      delete_in_db todo_id db = some (t, db2) →
      t ∈ db ∧ t.id = todo_id ∧ db2.Sublist db ∧ db2.length + 1 = db.length := by
  intro db
  induction db with
  | nil => intro t db2 h; simp [delete_in_db] at h
  | cons t0 ts ih =>
    intro t db2 h
    cases hid : (t0.id == todo_id) with
    | true =>
      simp only [delete_in_db, hid, if_true, Option.some.injEq, Prod.mk.injEq] at h
      obtain ⟨rfl, rfl⟩ := h
      exact ⟨List.mem_cons_self _ _, by simpa using hid, List.sublist_cons_self _ _, rfl⟩
    | false =>
      cases hrec : delete_in_db todo_id ts with
      | none => simp [delete_in_db, hid, hrec] at h
      | some p =>
        simp only [delete_in_db, hid, Bool.false_eq_true, if_false, hrec,
          Option.map_some', Option.some.injEq, Prod.mk.injEq] at h
        obtain ⟨rfl, rfl⟩ := h
        obtain ⟨m1, m2, m3, m4⟩ := ih p.1 p.2 (by rw [hrec])
        refine ⟨List.mem_cons_of_mem _ m1, m2, m3.cons₂ _, ?_⟩
        simp only [List.length_cons]
        omega

theorem delete_in_db_get_after (todo_id : Nat) :
    ∀ db : List Todo, ∀ t : Todo, ∀ db2 : List Todo,
      (db_ids db).Nodup → delete_in_db todo_id db = some (t, db2) →
      get_todo todo_id db2 = none := by
  intro db
  induction db with
  | nil => intro t db2 _ h; simp [delete_in_db] at h
  | cons t0 ts ih =>
    intro t db2 hnd h
    simp only [db_ids, List.map_cons, List.nodup_cons] at hnd
    obtain ⟨hnotin, hnd'⟩ := hnd
    cases hid : (t0.id == todo_id) with
    | true =>
      simp only [delete_in_db, hid, if_true, Option.some.injEq, Prod.mk.injEq] at h
      obtain ⟨rfl, rfl⟩ := h
      have hid' : t0.id = todo_id := by simpa using hid
      subst hid'
      apply List.find?_eq_none.2
      intro x hx
      simp only [beq_iff_eq]
      intro hcontra
      exact hnotin (hcontra ▸ List.mem_map_of_mem Todo.id hx)
    | false =>
      cases hrec : delete_in_db todo_id ts with
      | none => simp [delete_in_db, hid, hrec] at h
      | some p =>
        simp only [delete_in_db, hid, Bool.false_eq_true, if_false, hrec,
          Option.map_some', Option.some.injEq, Prod.mk.injEq] at h
        obtain ⟨rfl, rfl⟩ := h
        have htail := ih p.1 p.2 hnd' (by rw [hrec])
        rw [get_todo_cons_neg _ hid]
        exact htail

theorem delete_todo_next_id (todo_id : Nat) (s : AppState) :
    (delete_todo todo_id s).2.next_id = s.next_id := by
  unfold delete_todo
  cases h : delete_in_db todo_id s.todos_db with
  | none => rfl
  | some p => rfl

/-! ### Preservation of the id-allocation invariant -/

theorem inv_create (todo : TodoCreate) (now : Nat) (s : AppState) (h : Inv s) :
    Inv (create_todo todo now s).2 := by
  obtain ⟨hbound, hnd⟩ := h
  constructor
  · intro t ht
    simp only [create_todo, List.mem_append, List.mem_singleton] at ht
    rcases ht with ht | ht
    · exact Nat.lt_succ_of_lt (hbound t ht)
    · subst ht; exact Nat.lt_succ_self _
  · simp only [create_todo, db_ids, List.map_append, List.map_cons, List.map_nil]
    rw [List.nodup_append]
    refine ⟨hnd, List.nodup_singleton _, ?_⟩
    intro a ha hb
    simp only [List.mem_singleton] at hb
    subst hb
    obtain ⟨t, ht, heq⟩ := List.mem_map.1 ha
    exact Nat.ne_of_lt (hbound t ht) heq

theorem inv_update (todo_id : Nat) (u : TodoUpdate) (now : Nat) (s : AppState)
    (h : Inv s) : Inv (update_todo todo_id u now s).2 := by
  obtain ⟨hbound, hnd⟩ := h
  unfold update_todo
  cases hdb : update_in_db todo_id u now s.todos_db with
  | none => exact ⟨hbound, hnd⟩
  | some p =>
    have hids : db_ids p.2 = db_ids s.todos_db := by
      cases hfind : get_todo todo_id s.todos_db with
      | none =>
        rw [update_in_db_of_find_none todo_id u now s.todos_db hfind] at hdb
        cases hdb
      | some t =>
        obtain ⟨db2, h1, _, h3⟩ := update_in_db_of_find_some todo_id u now s.todos_db t hfind
        rw [h1] at hdb
        cases hdb
        exact h3
    constructor
    · intro t ht
      have : t.id ∈ db_ids s.todos_db := by
        rw [← hids]
        exact List.mem_map_of_mem Todo.id ht
      obtain ⟨t', ht', heq⟩ := List.mem_map.1 this
      simpa [← heq] using hbound t' ht'
    · show (db_ids p.2).Nodup
      rw [hids]
      exact hnd

theorem inv_delete (todo_id : Nat) (s : AppState) (h : Inv s) :
    Inv (delete_todo todo_id s).2 := by
  obtain ⟨hbound, hnd⟩ := h
  unfold delete_todo
  cases hdb : delete_in_db todo_id s.todos_db with
  | none => exact ⟨hbound, hnd⟩
  | some p =>
    obtain ⟨_, _, hsub, _⟩ := delete_in_db_eq_some todo_id s.todos_db p.1 p.2 (by rw [hdb])
    constructor
    · intro t ht
      exact hbound t (hsub.mem ht)
    · exact hnd.sublist (hsub.map Todo.id)

theorem inv_step (s : AppState) (op : Op) (h : Inv s) : Inv (step s op) := by
  cases op with
  | createOp todo now => exact inv_create todo now s h
  | updateOp todo_id u now => exact inv_update todo_id u now s h
  | deleteOp todo_id => exact inv_delete todo_id s h
  | getOp todo_id => exact h
  | listOp => exact h
  | statsOp => exact h

theorem inv_run (ops : List Op) : ∀ s : AppState, Inv s → Inv (run s ops) := by
  induction ops with
  | nil => intro s h; exact h
  | cons op ops ih => intro s h; exact ih (step s op) (inv_step s op h)

theorem inv_init : Inv initState := by
  constructor
  · intro t ht; simp [initState] at ht
  · simp [initState, db_ids]

theorem inv_foldl_create (l : List TodoCreate) (now : Nat) :
    ∀ s : AppState, Inv s →
      Inv (l.foldl (fun s t => (create_todo t now s).2) s) := by
  induction l with
  | nil => intro s h; exact h
  | cons c l ih => intro s h; exact ih (create_todo c now s).2 (inv_create c now s h)

theorem inv_seed (now : Nat) : Inv (seed_state now) :=
  inv_foldl_create dummy_todos now initState inv_init

/-! ### Monotonicity of the id counter and the created-id trace -/

theorem step_next_id_le (s : AppState) (op : Op) : s.next_id ≤ (step s op).next_id := by
  cases op with
  | createOp todo now => exact Nat.le_succ _
  | updateOp todo_id u now =>
    simp only [step, update_todo_next_id, Nat.le_refl]
  | deleteOp todo_id =>
    simp only [step, delete_todo_next_id, Nat.le_refl]
  | getOp todo_id => exact Nat.le_refl _
  | listOp => exact Nat.le_refl _
  | statsOp => exact Nat.le_refl _

theorem created_ids_lower_bound (ops : List Op) :
    ∀ s : AppState, ∀ i ∈ created_ids s ops, s.next_id ≤ i := by
  induction ops with
  | nil => intro s i hi; simp [created_ids] at hi
  | cons op ops ih =>
    intro s i hi
    cases op with
    | createOp todo now =>
      simp only [created_ids, List.mem_cons] at hi
      rcases hi with hi | hi
      · subst hi; exact Nat.le_refl _
      · exact Nat.le_trans (step_next_id_le s (Op.createOp todo now)) (ih _ i hi)
    | updateOp todo_id u now =>
      exact Nat.le_trans (step_next_id_le s (Op.updateOp todo_id u now))
        (ih _ i (by simpa [created_ids] using hi))
    | deleteOp todo_id =>
      exact Nat.le_trans (step_next_id_le s (Op.deleteOp todo_id))
        (ih _ i (by simpa [created_ids] using hi))
    | getOp todo_id => exact ih _ i (by simpa [created_ids] using hi)
    | listOp => exact ih _ i (by simpa [created_ids] using hi)
    | statsOp => exact ih _ i (by simpa [created_ids] using hi)

theorem created_ids_pairwise_lt (ops : List Op) :
    ∀ s : AppState, List.Pairwise (fun a b => a < b) (created_ids s ops) := by
  induction ops with
  | nil => intro s; simp [created_ids]
  | cons op ops ih =>
    intro s
    cases op with
    | createOp todo now =>
      simp only [created_ids]
      refine List.Pairwise.cons ?_ (ih _)
      intro i hi
      have hlow := created_ids_lower_bound ops (step s (Op.createOp todo now)) i hi
      have hstep : (step s (Op.createOp todo now)).next_id = s.next_id + 1 := rfl
      have : s.next_id + 1 ≤ i := by rw [← hstep]; exact hlow
      have hcid : (create_todo todo now s).1.id = s.next_id := rfl
      omega
    | updateOp todo_id u now => simpa [created_ids] using ih (step s (Op.updateOp todo_id u now))
    | deleteOp todo_id => simpa [created_ids] using ih (step s (Op.deleteOp todo_id))
    | getOp todo_id => simpa [created_ids] using ih s
    | listOp => simpa [created_ids] using ih s
    | statsOp => simpa [created_ids] using ih s

/-! ### Claim theorems (Store Service) -/

/-- C1: for every collection state, Stats returns `total_todos` equal to the
number of items, `completed_todos` equal to the number of items with a truthy
completed flag, `pending_todos = total - completed`, and
`completion_percentage = round(completed/total*100, 2)` when `total > 0` and
`0` when `total = 0`; on the empty collection all four fields are 0. -/
theorem stats_contract (db : List Todo) :
    (get_todo_stats db).total_todos = db.length ∧
    (get_todo_stats db).completed_todos = db.countP (fun t => py_truthy t.completed) ∧
    (get_todo_stats db).pending_todos =
      (get_todo_stats db).total_todos - (get_todo_stats db).completed_todos ∧
    (0 < db.length →
      (get_todo_stats db).completion_percentage =
        round2 ((db.countP (fun t => py_truthy t.completed) : ℚ) / (db.length : ℚ) * 100)) ∧
    (db.length = 0 →
      get_todo_stats db =
        { total_todos := 0, completed_todos := 0, pending_todos := 0,
          completion_percentage := 0 }) ∧
    get_todo_stats [] =
      { total_todos := 0, completed_todos := 0, pending_todos := 0,
        completion_percentage := 0 } := by
  refine ⟨rfl, rfl, rfl, ?_, ?_, rfl⟩
  · intro h
    simp [get_todo_stats, h]
  · intro h
    have hdb : db = [] := List.length_eq_zero.1 h
    subst hdb
    rfl

/-- C1 witness: the seeded collection (5 items, 1 completed) and the empty
collection, with the hypotheses discharged concretely. -/
theorem stats_contract_witness :
    (0 < (seed_state 0).todos_db.length ∧
      (get_todo_stats (seed_state 0).todos_db).completion_percentage =
        round2 (((seed_state 0).todos_db.countP (fun t => py_truthy t.completed) : ℚ) /
          ((seed_state 0).todos_db.length : ℚ) * 100)) ∧
    (List.length ([] : List Todo) = 0 ∧
      get_todo_stats [] =
        { total_todos := 0, completed_todos := 0, pending_todos := 0,
          completion_percentage := 0 }) :=
  ⟨⟨by decide, (stats_contract (seed_state 0).todos_db).2.2.2.1 (by decide)⟩,
   ⟨rfl, (stats_contract []).2.2.2.2.1 rfl⟩⟩

/-- C2: the id counter starts at 1, is 6 after seeding the five sample items,
increments by exactly 1 on every successful create (which returns the counter
as the new id), and never decreases under any operation; hence along any
sequence of operations from the seeded state the ids returned by creates are
strictly increasing and unique, and ids are unique across the live collection
at all times. -/
theorem id_allocation_contract (now0 : Nat) (ops ops2 : List Op) :
    initState.next_id = 1 ∧
    (seed_state now0).next_id = 6 ∧
    (∀ todo now s, (create_todo todo now s).1.id = s.next_id ∧
      (create_todo todo now s).2.next_id = s.next_id + 1) ∧
    (∀ s op, s.next_id ≤ (step s op).next_id) ∧
    List.Pairwise (fun a b => a < b) (created_ids (run (seed_state now0) ops) ops2) ∧
    (created_ids (run (seed_state now0) ops) ops2).Nodup ∧
    Inv (run (seed_state now0) ops) := by
  refine ⟨rfl, rfl, fun todo now s => ⟨rfl, rfl⟩, step_next_id_le,
    created_ids_pairwise_lt ops2 _, ?_, inv_run ops _ (inv_seed now0)⟩
  exact (created_ids_pairwise_lt ops2 _).imp fun h => Nat.ne_of_lt h

/-- C3: every create returns an item whose id is the current counter value
(fresh: not among the live ids of the reachable state it is applied to) and
whose `created_at` and `updated_at` both equal the current time; a create
supplying only a title yields `description = null` and `completed = false`. -/
theorem create_contract (now n0 : Nat) (ops : List Op) (title : String) (c : TodoCreate) :
    ((create_todo c now (run (seed_state n0) ops)).1.created_at = now ∧
     (create_todo c now (run (seed_state n0) ops)).1.updated_at = now) ∧
    (create_todo c now (run (seed_state n0) ops)).1.id = (run (seed_state n0) ops).next_id ∧
    (create_todo c now (run (seed_state n0) ops)).1.id ∉
      db_ids (run (seed_state n0) ops).todos_db ∧
    ((create_todo { title := title, description := none, completed := false } now
        (run (seed_state n0) ops)).1.description = none ∧
     (create_todo { title := title, description := none, completed := false } now
        (run (seed_state n0) ops)).1.completed = some false ∧
     (create_todo { title := title, description := none, completed := false } now
        (run (seed_state n0) ops)).1.created_at =
       (create_todo { title := title, description := none, completed := false } now
        (run (seed_state n0) ops)).1.updated_at) := by
  obtain ⟨hbound, _⟩ := inv_run ops (seed_state n0) (inv_seed n0)
  refine ⟨⟨rfl, rfl⟩, rfl, ?_, rfl, rfl, rfl⟩
  intro hmem
  obtain ⟨t, ht, heq⟩ := List.mem_map.1 hmem
  exact Nat.ne_of_lt (hbound t ht) heq

/-- C4: updating an existing id applies exactly the set fields (unset fields
keep their prior values), stamps `updated_at` with the current time (hence a
value ≥ the previous one under a monotone clock), leaves `id` and
`created_at` unchanged, and returns the updated item, which is stored;
updating a nonexistent id returns NotFound and leaves the state unchanged. -/
theorem update_contract (s : AppState) (todo_id : Nat) (u : TodoUpdate) (now : Nat) :
    (∀ t, get_todo todo_id s.todos_db = some t →
      ∃ t2, (update_todo todo_id u now s).1 = some t2 ∧
        t2 = apply_update_data u now t ∧
        (u.title = none → t2.title = t.title) ∧
        (u.description = none → t2.description = t.description) ∧
        (u.completed = none → t2.completed = t.completed) ∧
        t2.updated_at = now ∧
        (t.updated_at ≤ now → t.updated_at ≤ t2.updated_at) ∧
        t2.id = t.id ∧ t2.created_at = t.created_at ∧
        t2 ∈ (update_todo todo_id u now s).2.todos_db) ∧
    (get_todo todo_id s.todos_db = none →
      (update_todo todo_id u now s).1 = none ∧ (update_todo todo_id u now s).2 = s) := by
  constructor
  · intro t hfind
    obtain ⟨db2, h1, h2, _⟩ := update_in_db_of_find_some todo_id u now s.todos_db t hfind
    refine ⟨apply_update_data u now t, ?_, rfl, ?_, ?_, ?_, rfl, ?_, rfl, rfl, ?_⟩
    · simp [update_todo, h1]
    · intro h; simp [apply_update_data, h]
    · intro h; simp [apply_update_data, h]
    · intro h; simp [apply_update_data, h]
    · intro h; exact h
    · simp only [update_todo, h1]
      exact h2
  · intro hfind
    have h := update_in_db_of_find_none todo_id u now s.todos_db hfind
    constructor <;> simp [update_todo, h]

/-- C4 witness: updating the one-item fixture with `{completed: true}` keeps
title and description, advances `updated_at` to 5 ≥ 3, and stores the result;
updating the absent id 99 returns NotFound with the state unchanged. -/
theorem update_contract_witness :
    (∃ t2, (update_todo 1 wUpd 5 wState).1 = some t2 ∧
      t2.title = wTodo.title ∧ t2.description = wTodo.description ∧
      t2.updated_at = 5 ∧ wTodo.updated_at ≤ t2.updated_at ∧
      t2 ∈ (update_todo 1 wUpd 5 wState).2.todos_db) ∧
    (update_todo 99 wUpd 5 wState).1 = none ∧ (update_todo 99 wUpd 5 wState).2 = wState := by
  refine ⟨?_, (update_contract wState 99 wUpd 5).2 (by decide)⟩
  obtain ⟨t2, h1, _, h3, h4, _, h6, h7, _, _, h10⟩ :=
    (update_contract wState 1 wUpd 5).1 wTodo (by decide)
  exact ⟨t2, h1, h3 rfl, h4 rfl, h6, h7 (by decide), h10⟩

/-- C5: deleting an id succeeds exactly when some live item has that id; a
successful delete returns the confirmation message naming the deleted item's
title and removes exactly that item, so (live ids being unique) a subsequent
get-by-id on the same id yields NotFound; deleting a nonexistent id yields
NotFound and leaves the state unchanged. -/
theorem delete_contract (s : AppState) (todo_id : Nat) :
    ((delete_in_db todo_id s.todos_db).isSome ↔ ∃ t ∈ s.todos_db, t.id = todo_id) ∧
    (∀ t db2, delete_in_db todo_id s.todos_db = some (t, db2) →
      delete_todo todo_id s = (some (delete_message t), { s with todos_db := db2 }) ∧
      delete_message t = "Todo " ++ sq ++ pyStr t.title ++ sq ++ " deleted successfully" ∧
      t ∈ s.todos_db ∧ t.id = todo_id ∧
      db2.Sublist s.todos_db ∧ db2.length + 1 = s.todos_db.length ∧
      ((db_ids s.todos_db).Nodup → get_todo todo_id db2 = none)) ∧
    (delete_in_db todo_id s.todos_db = none → delete_todo todo_id s = (none, s)) := by
  refine ⟨delete_in_db_isSome todo_id s.todos_db, ?_, ?_⟩
  · intro t db2 h
    obtain ⟨m1, m2, m3, m4⟩ := delete_in_db_eq_some todo_id s.todos_db t db2 h
    exact ⟨by simp [delete_todo, h], rfl, m1, m2, m3, m4,
      fun hnd => delete_in_db_get_after todo_id s.todos_db t db2 hnd h⟩
  · intro h
    simp [delete_todo, h]

/-- C5 witness: deleting id 1 from the one-item fixture returns the message
naming its title and empties the collection, after which get-by-id 1 is
NotFound; deleting the absent id 99 returns NotFound unchanged. -/
theorem delete_contract_witness :
    (delete_todo 1 wState = (some (delete_message wTodo), { wState with todos_db := [] }) ∧
      get_todo 1 ([] : List Todo) = none) ∧
    delete_todo 99 wState = (none, wState) := by
  obtain ⟨h1, _, _, _, _, _, h7⟩ := (delete_contract wState 1).2.1 wTodo [] (by decide)
  exact ⟨⟨h1, h7 (by decide)⟩, (delete_contract wState 99).2.2 (by decide)⟩

/-- C10: at the Store Service boundary the update merge excludes only fields
that were not set in the request: a field explicitly set to null is applied
and overwrites the stored value with null (for `title` and `description`
alike), while an omitted field keeps its prior value — so omitted and
explicitly-null requests are observably different. -/
theorem explicit_null_update_contract (t : Todo) (now : Nat) (v : Option String)
    (rest : List Todo) :
    (apply_update_data { title := some none, description := none, completed := none }
      now t).title = none ∧
    (apply_update_data { title := none, description := some none, completed := none }
      now t).description = none ∧
    (apply_update_data { title := some v, description := none, completed := none }
      now t).title = v ∧
    (apply_update_data { title := none, description := none, completed := none }
      now t).title = t.title ∧
    (apply_update_data { title := none, description := none, completed := none }
      now t).description = t.description ∧
    (∃ t2, update_in_db t.id { title := some none, description := some none, completed := none }
        now (t :: rest) = some (t2, t2 :: rest) ∧
      t2.title = none ∧ t2.description = none) := by
  refine ⟨rfl, rfl, rfl, rfl, rfl, ?_⟩
  refine ⟨apply_update_data
    { title := some none, description := some none, completed := none } now t, ?_, rfl, rfl⟩
  simp [update_in_db]

end TodoApp

namespace TodoAdapter

open TodoApp

/-! ### Claim theorems (Tool Bridge Adapter) -/

theorem dispatch_tool_eq_none_iff (env : ToolEnv) (name : String) :
    dispatch_tool env name = none ↔ name ∉ tool_names := by
  unfold dispatch_tool
  split_ifs with h1 h2 h3 h4 h5 h6 <;> simp [tool_names, h1, *]

/-- C6: the adapter's update tool forwards exactly the non-null arguments:
each forwarded field carries the (non-null) argument value, a null or absent
argument leaves its key out of the payload, and in particular an invocation
with a null `description` produces a payload whose merge leaves the stored
description unchanged. -/
theorem adapter_update_filter (i : Nat) (ti de : Option String) (co : Option Bool)
    (td : Todo) (now : Nat) :
    (build_update_data { todo_id := i, title := ti, description := de, completed := co }).title
      = ti.map some ∧
    (build_update_data { todo_id := i, title := ti, description := de, completed := co }).description
      = de.map some ∧
    (build_update_data { todo_id := i, title := ti, description := de, completed := co }).completed
      = co.map some ∧
    (build_update_data { todo_id := i, title := ti, description := none, completed := co }).description
      = none ∧
    (apply_update_data
      (build_update_data { todo_id := i, title := ti, description := none, completed := co })
      now td).description = td.description :=
  ⟨rfl, rfl, rfl, rfl, rfl⟩

/-- C7: every tool invocation yields a single text content block: an unknown
tool name yields the text `Unknown tool: {name}` rather than a fault, and an
exception raised by a registered tool body is caught and converted into the
text `Error: {message}`, never propagated. -/
theorem tool_call_error_contract (env : ToolEnv) (name : String) (e : String) :
    (∃ msg, handle_call_tool env name = mk_text_result msg) ∧
    (name ∉ tool_names →
      handle_call_tool env name = mk_text_result ("Unknown tool: " ++ name)) ∧
    (dispatch_tool env name = some (Except.error e) →
      handle_call_tool env name = mk_text_result ("Error: " ++ e)) := by
  refine ⟨?_, ?_, ?_⟩
  · unfold handle_call_tool
    cases h : dispatch_tool env name with
    | none => exact ⟨"Unknown tool: " ++ name, rfl⟩
    | some r =>
      cases r with
      | ok msg => exact ⟨msg, rfl⟩
      | error e2 => exact ⟨"Error: " ++ e2, rfl⟩
  · intro h
    have hd : dispatch_tool env name = none := (dispatch_tool_eq_none_iff env name).2 h
    simp [handle_call_tool, hd]
  · intro h
    simp [handle_call_tool, h]

/-- C7 witness: an unregistered tool name produces a text result containing
that name, and a raising tool body produces a text result carrying the
message. -/
theorem tool_call_error_contract_witness :
    handle_call_tool wEnv "frobnicate" = mk_text_result ("Unknown tool: frobnicate") ∧
    handle_call_tool wEnv "get_todos" = mk_text_result ("Error: boom") := by
  constructor
  · have h := (tool_call_error_contract wEnv "frobnicate" "x").2.1 (by decide)
    have heq : ("Unknown tool: " ++ "frobnicate" : String) = "Unknown tool: frobnicate" := rfl
    rw [heq] at h
    exact h
  · have h := (tool_call_error_contract wEnv "get_todos" "boom").2.2 (by rfl)
    have heq : ("Error: " ++ "boom" : String) = "Error: boom" := rfl
    rw [heq] at h
    exact h

/-- C8 counterexample: the Store serializes every field, so an item created
with only a title reaches the adapter with `description` present and null;
its rendered line ends in `None`, not in the claimed placeholder
`No description`. -/
theorem get_todos_render_counterexample :
    render_todo_line (serialize_todo cexTodo) = "ID: 6 | X | ⏳ | None" ∧
    ¬ render_todo_line (serialize_todo cexTodo) = "ID: 6 | X | ⏳ | No description" ∧
    get_todos_text [cexTodo] = "All Todos:\nID: 6 | X | ⏳ | None" := by
  refine ⟨by decide, by decide, by decide⟩

/-- C8 (amended): the adapter renders each list-all item as one line with its
id, its title, a done/pending glyph by the truthiness of `completed`, and its
description, where a null description renders as the literal `None`; the
placeholder `No description` is produced only for a JSON object without a
`description` key, which the Store's serialization never emits (every
serialized item carries the key). -/
theorem get_todos_render_amended (db : List Todo) (t : Todo) :
    get_todos_text db = "All Todos:\n" ++ String.intercalate ("\n")
      (db.map (fun x => "ID: " ++ toString x.id ++ " | " ++ pyStr x.title ++ " | " ++
        (if py_truthy x.completed then "✅" else "⏳") ++ " | " ++ pyStr x.description)) ∧
    render_todo_line (serialize_todo t) =
      "ID: " ++ toString t.id ++ " | " ++ pyStr t.title ++ " | " ++
        (if py_truthy t.completed then "✅" else "⏳") ++ " | " ++ pyStr t.description ∧
    (t.description = none → render_todo_line (serialize_todo t) =
      "ID: " ++ toString t.id ++ " | " ++ pyStr t.title ++ " | " ++
        (if py_truthy t.completed then "✅" else "⏳") ++ " | " ++ "None") ∧
    (serialize_todo t).description = some t.description ∧
    render_description none = "No description" := by
  refine ⟨?_, rfl, ?_, rfl, rfl⟩
  · simp only [get_todos_text, List.map_map]
    rfl
  · intro h
    show _ ++ render_description (serialize_todo t).description = _
    rw [show (serialize_todo t).description = some t.description from rfl, h]
    rfl

/-- C8 witness: the amended rendering evaluated on the null-description
fixture. -/
theorem get_todos_render_amended_witness :
    cexTodo.description = none ∧
    render_todo_line (serialize_todo cexTodo) =
      "ID: " ++ toString cexTodo.id ++ " | " ++ pyStr cexTodo.title ++ " | " ++
        (if py_truthy cexTodo.completed then "✅" else "⏳") ++ " | " ++ "None" :=
  ⟨rfl, (get_todos_render_amended [] cexTodo).2.2.1 rfl⟩

/-- C9: when the underlying HTTP call cannot reach the Store Service the
adapter raises a descriptive error whose text names the expected address
`http://localhost:8001`; when the Store Service responds with a non-success
status it raises an error carrying the status code and the response body;
successes pass the body through. -/
theorem make_request_error_contract (status : Nat) (body b : String) :
    make_request HttpOutcome.connectError = Except.error connect_error_msg ∧
    connect_error_msg =
      ("Cannot connect to FastAPI server. Make sure it" ++ sq ++ "s running on ") ++
        "http://localhost:8001" ∧
    make_request (HttpOutcome.httpError status body) =
      Except.error ("HTTP error: " ++ toString status ++ " - " ++ body) ∧
    make_request (HttpOutcome.success b) = Except.ok b :=
  ⟨rfl, by decide, rfl, rfl⟩

end TodoAdapter
